import Mathlib

/-!
Shallow embedding of the transport scheduling core of the steel-plant
simulation: the ladle-car state machine (equipment/ladle_car.py), the crane
state machine (equipment/crane.py), the dispatcher
(equipment/transport_manager.py) and the spatial service
(spatial/spatial_manager.py).  Python dictionaries are modelled as
association lists, machine floats as rationals, and the float square root
is passed in as an explicit function parameter wherever the source takes a
float power 0.5.  Raised exceptions are modelled with Except.
-/

namespace SteelPlant

/-- A plant-floor position, the dict \x7b"x": x, "y": y\x7d of the source. -/
structure Pos where
  x : ℚ
  y : ℚ
deriving DecidableEq, Repr

/-- Generic model of a python dict assignment d[k] = v on an association
list: replace the binding when the key is present, append it otherwise. -/
def dictSet {κ β : Type} [BEq κ] (l : List (κ × β)) (k : κ) (v : β) : List (κ × β) :=
  if l.any (fun p => p.1 == k) then l.map (fun p => if p.1 == k then (k, v) else p)
  else l ++ [(k, v)]

/-- Abstract content of a heapq binary heap after heappush: the heap is
modelled by the multiset of its entries, kept in a list. -/
def heapPush {α : Type} (l : List α) (x : α) : List α :=
  l ++ [x]

theorem heapPush_perm {α : Type} (l : List α) (x : α) : (heapPush l x).Perm (x :: l) :=
  List.perm_append_singleton x l

/-! ## Ladle car (equipment/ladle_car.py) -/

/-- The four valid values of BaseLadleCar._status_string. -/
inductive CarStatus
  | idle
  | loading
  | moving
  | unloading
deriving DecidableEq, Repr

/-- The slice of a station/unit object the car core touches: the result of
unit.name() when the attribute exists and is callable, and whether the unit
has an add_heat attribute. -/
structure UnitRef where
  unitName : Option String
  hasAddHeat : Bool
deriving DecidableEq, Repr

/-- The destination dict \x7b"bay": ..., "unit": ...\x7d handed to assign_heat. -/
structure Destination where
  bay : Option String
  unitRef : Option UnitRef
deriving DecidableEq, Repr

/-- One path segment dict with keys "from", "to", "distance",
"travel_time".  Typing the record models a well-formed segment; a path
whose segments are malformed is modelled by the callee returning none. -/
structure Segment where
  fromPos : Pos
  toPos : Pos
  distance : ℚ
  travelTime : ℚ
deriving DecidableEq, Repr

/-- The mutable state of a BaseLadleCar.  The salabim plumbing (the State
object mirrored by _status_string, the move_queue, the callback slot) is
elided; the status string itself is the field status. -/
structure CarState where
  carId : ℕ
  carType : String
  homeBay : String
  currentBay : String
  speed : ℚ
  status : CarStatus
  position : Pos
  currentHeat : Option ℕ
  destination : Option Destination
  path : List Segment
  currentPathSegment : ℕ
  totalDistanceTraveled : ℚ
deriving DecidableEq, Repr

/-- The snapshot of the car another component sees when the
on_idle_callback fires from inside set_status: at that moment the status
field is already updated and current_heat is whatever it then holds. -/
structure Obs where
  status : CarStatus
  currentHeat : Option ℕ
deriving DecidableEq, Repr

/-- BaseLadleCar.set_status restricted to the four valid statuses (the
string-validation branches reject other inputs and change nothing).  When
the status changes to idle the on_idle_callback fires; the returned
observation is the car snapshot visible to that callback. -/
def set_status (c : CarState) (newStatus : CarStatus) : CarState × Option Obs :=
  if newStatus = c.status then (c, none)
  else
    let c1 : CarState := { c with status := newStatus }
    if newStatus = CarStatus.idle then (c1, some ⟨CarStatus.idle, c1.currentHeat⟩)
    else (c1, none)

/-- BaseLadleCar.is_available. -/
def is_available (c : CarState) : Bool :=
  c.status == CarStatus.idle

/-- BaseLadleCar.assign_heat.  getPath models the call
spatial_manager.get_path(from_bay, to_bay, car_type) (a method the
repository never defines, see get_path under spatial below); none models a
non-list or missing result, some [] the empty path.  On the invalid-path
branch the source leaves the just-assigned bad value in self.path and
clears only current_heat and destination; the bad value is modelled as []. -/
def assign_heat (getPath : String → Option String → String → Option (List Segment))
    (c : CarState) (heatId : ℕ) (dest : Destination) : Bool × CarState :=
  if c.status != CarStatus.idle then (false, c)
  else
    let c1 : CarState := { c with currentHeat := some heatId, destination := some dest }
    match getPath c1.currentBay dest.bay c1.carType with
    | none => (false, { c1 with currentHeat := none, destination := none, path := [] })
    | some [] => (false, { c1 with currentHeat := none, destination := none, path := [] })
    | some segs =>
        let c2 : CarState := { c1 with path := segs, currentPathSegment := 0 }
        (true, (set_status c2 CarStatus.loading).1)

/-- One iteration of the BaseLadleCar.process loop in status "unloading"
once a crane has been obtained.  The hold for the unload duration and the
log-only result of target_unit.add_heat are elided (they do not touch the
car fields).  When the destination unit is missing or lacks add_heat the
source calls set_status("idle") first and clears current_heat only
afterwards, so the idle callback observes the car with the heat still
aboard; on the normal path the heat is cleared before the status change. -/
def unloadingStepWithCrane (c : CarState) : CarState × Option Obs :=
  match c.destination.bind (fun d => d.unitRef) with
  | none =>
      let r := set_status c CarStatus.idle
      ({ r.1 with currentHeat := none }, r.2)
  | some u =>
      if !u.hasAddHeat then
        let r := set_status c CarStatus.idle
        ({ r.1 with currentHeat := none }, r.2)
      else
        let c1 : CarState :=
          { c with
            currentHeat := none
            destination := none
            path := []
            currentPathSegment := 0 }
        set_status c1 CarStatus.idle

/-- The except-handler at the bottom of the BaseLadleCar.process loop: any
exception is logged, the car is reset with set_status("idle") and holds 1.
current_heat, destination and path are not cleared there. -/
def processExceptionHandler (c : CarState) : CarState × Option Obs :=
  set_status c CarStatus.idle

/-- A fresh BaseLadleCar as built by __init__ (and by
TransportManager.create_ladle_car): idle, empty hands, positioned at the
home bay.  The ValueError guard for an invalid car_type string is outside
the modelled fleet, which only uses the three valid types. -/
def mkLadleCar (carId : ℕ) (carType homeBay : String) (pos : Pos) (speed : ℚ) : CarState where
  carId := carId
  carType := carType
  homeBay := homeBay
  currentBay := homeBay
  speed := speed
  status := CarStatus.idle
  position := pos
  currentHeat := none
  destination := none
  path := []
  currentPathSegment := 0
  totalDistanceTraveled := 0

/-! ## Dispatcher (equipment/transport_manager.py) -/

/-- Case-insensitive substring test modelling the python expression
"caster" in s.lower(). -/
def nameHasCaster (s : String) : Bool :=
  decide ("caster".toList <:+: s.toList.map Char.toLower)

/-- The car-type inference of TransportManager.request_transport.
toUnitName is to_unit.name() when to_unit has a callable name attribute,
none otherwise.  Cross-bay moves default to "tapping", same-bay moves to
"treatment"; a destination whose name contains "caster" forces
"treatment". -/
def inferCarType (fromBay toBay : String) (toUnitName : Option String) : String :=
  let carType := if fromBay != toBay then "tapping" else "treatment"
  match toUnitName with
  | some n => if nameHasCaster n then "treatment" else carType
  | none => carType

/-- The status field of a TransportRequest dict. -/
inductive ReqStatus
  | pending
  | assigned
deriving DecidableEq, Repr

/-- The TransportRequest dict built by request_transport.  The external heat
and unit references are reduced to the data the dispatcher core reads: the
heat id, the bay names, the car type, and the slice of to_unit that
assign_heat later probes. -/
structure Request where
  heatId : ℕ
  fromBay : String
  toBay : String
  toUnit : Option UnitRef
  carType : String
  timeRequested : ℚ
  status : ReqStatus
  assignedCar : Option ℕ
deriving DecidableEq, Repr

/-- One heap entry (priority, timestamp, request) of pending_requests. -/
structure PendingEntry where
  priority : Int
  timestamp : ℚ
  req : Request
deriving DecidableEq, Repr

/-- Heap order on entries: the lexicographic (priority, timestamp)
comparison heapq performs on the leading tuple components.  A full tie
would make python compare the request dicts themselves, which raises; ties
are modelled as resolved toward the earlier list position. -/
def entryLE (a b : PendingEntry) : Bool :=
  decide (a.priority < b.priority) ||
    (decide (a.priority = b.priority) && decide (a.timestamp ≤ b.timestamp))

/-- heappop on the multiset model of the heap: remove and return a minimal
entry (the leftmost minimal one). -/
def popMin : List PendingEntry → Option (PendingEntry × List PendingEntry)
  | [] => none
  | e :: rest =>
    match popMin rest with
    | none => some (e, [])
    | some (m, rest1) => if entryLE e m then some (e, rest) else some (m, e :: rest1)

/-- The available-car filter of _process_pending_requests: cars of exactly
the requested type that report is_available (idle). -/
def availableCarsFor (carType : String) (cars : List CarState) : List CarState :=
  cars.filter (fun c => c.carType == carType && is_available c)

/-- min(available_cars, key=distance to the request origin bay): python
min keeps the first of several minimal elements. -/
def closestCarFrom (dist : String → String → ℚ) (fromBay : String)
    (c0 : CarState) (cs : List CarState) : CarState :=
  cs.foldl (fun best x =>
    if dist x.currentBay fromBay < dist best.currentBay fromBay then x else best) c0

/-- In-place mutation of the assigned car object, modelled as replacing
the car with that id in the fleet list (fleet ids are unique). -/
def updateCar (cars : List CarState) (cid : ℕ) (c1 : CarState) : List CarState :=
  cars.map (fun c => if c.carId = cid then c1 else c)

/-- The loop body of TransportManager._process_pending_requests, written
with an explicit fuel argument: every iteration of the python while loop
permanently removes one entry from the heap (a stale entry is dropped, an
assigned one is consumed, and the requeue cases break), so fuel equal to
the initial queue length makes the two loops agree.  dist models
_calculate_distance and getPath the spatial path call inside assign_heat.
The ℕ component of the result is processed_count, the number of
successful assignments. -/
def drainLoopF (getPath : String → Option String → String → Option (List Segment))
    (dist : String → String → ℚ) :
    ℕ → List PendingEntry → List CarState → ℕ →
    List PendingEntry × List CarState × ℕ
  | 0, pending, cars, processed => (pending, cars, processed)
  | fuel + 1, pending, cars, processed =>
    if 10 ≤ processed then (pending, cars, processed)
    else
      match popMin pending with
      | none => (pending, cars, processed)
      | some (e, rest) =>
        if e.req.status != ReqStatus.pending then
          drainLoopF getPath dist fuel rest cars processed
        else
          match availableCarsFor e.req.carType cars with
          | [] => (heapPush rest e, cars, processed)
          | c0 :: cs =>
            let chosen := closestCarFrom dist e.req.fromBay c0 cs
            let dest : Destination := { bay := some e.req.toBay, unitRef := e.req.toUnit }
            let r := assign_heat getPath chosen e.req.heatId dest
            if r.1 then
              drainLoopF getPath dist fuel rest (updateCar cars chosen.carId r.2) (processed + 1)
            else
              (heapPush rest e, cars, processed)

/-- TransportManager._process_pending_requests on the queue and fleet. -/
def process_pending_requests (getPath : String → Option String → String → Option (List Segment))
    (dist : String → String → ℚ) (pending : List PendingEntry) (cars : List CarState) :
    List PendingEntry × List CarState × ℕ :=
  drainLoopF getPath dist pending.length pending cars 0

/-- The fallback fleet of _setup_transport_equipment when no
ladle_car_types key is configured, at the source defaults n_ladle_cars = 3,
n_bays = 2, ladle_car_speed = 150: car i gets type tapping, treatment, rh
by i mod 3 and home bay by round robin.  getBayPos models
spatial_manager.get_bay_position. -/
def defaultFleet (getBayPos : String → Pos) : List CarState :=
  (List.range 3).map (fun i =>
    mkLadleCar (i + 1)
      (if i % 3 == 0 then "tapping" else if i % 3 == 1 then "treatment" else "rh")
      ("bay" ++ toString (i % 2 + 1))
      (getBayPos ("bay" ++ toString (i % 2 + 1))) 150)

/-! ## Spatial service (spatial/spatial_manager.py) -/

/-- One entry of a bay config "crane_paths" list, read with
path.get("start_x", 0) and path.get("y", 0). -/
structure CranePathCfg where
  startX : Option ℚ
  y : Option ℚ
deriving DecidableEq, Repr

/-- One configured bay together with its cached center.  _setup_bays
populates self.bays and self.bay_centers with the same keys in one step,
so the two dicts are bundled: the center field is the value
bay.get_center() cached in bay_centers.  (bay.py is not part of the
sources; per the spec the center is the geometric center of the bounds,
but nothing below depends on how the center was computed.) -/
structure BayRec where
  bayId : String
  topLeft : Pos
  bottomRight : Pos
  cranePaths : List CranePathCfg
  center : Pos
deriving DecidableEq, Repr

/-- The two shapes of values stored in
SpatialManager.equipment_locations: add_equipment stores the flat dict
\x7b"x": x, "y": y\x7d, while place_equipment stores
\x7b"bay_id": ..., "type": ..., "position": ...\x7d. -/
inductive EquipEntry
  | viaAdd (x y : ℚ)
  | viaPlace (bayId ty : String) (position : Pos)
deriving DecidableEq, Repr

/-- The SpatialManager state the queried operations read: the bay
registry with cached centers, the equipment-location dict, and
config["ladle_car_speed"] (defaulted to 150 at the read sites). -/
structure Spatial where
  bays : List BayRec
  equipmentLocations : List (String × EquipEntry)
  ladleCarSpeed : ℚ
deriving DecidableEq, Repr

/-- Dict lookup in self.bays / self.bay_centers. -/
def lookupBay (m : Spatial) (bayId : String) : Option BayRec :=
  (m.bays.find? (fun b => b.bayId == bayId))

/-- Dict lookup in self.equipment_locations. -/
def lookupEquip (m : Spatial) (unitId : String) : Option EquipEntry :=
  (m.equipmentLocations.find? (fun p => p.1 == unitId)).map (fun p => p.2)

/-- SpatialManager.add_equipment: store \x7b"x": x, "y": y\x7d under the
equipment type key. -/
def add_equipment (m : Spatial) (equipmentType : String) (x y : ℚ) : Spatial :=
  { m with equipmentLocations := dictSet m.equipmentLocations equipmentType (.viaAdd x y) }

/-- SpatialManager.get_unit_position.  An unknown id logs and returns the
origin; a known id is read as self.equipment_locations[unit_id]["position"],
which raises KeyError when the entry was stored by add_equipment (that
entry has no "position" key).  The raise is modelled as Except.error. -/
def get_unit_position (m : Spatial) (unitId : String) : Except String Pos :=
  match lookupEquip m unitId with
  | none => Except.ok ⟨0, 0⟩
  | some (EquipEntry.viaPlace _ _ p) => Except.ok p
  | some (EquipEntry.viaAdd _ _) => Except.error "KeyError: position"

/-- SpatialManager.get_bay_position: the cached center, or the origin for
an unknown bay. -/
def get_bay_position (m : Spatial) (bayId : String) : Pos :=
  match lookupBay m bayId with
  | none => ⟨0, 0⟩
  | some b => b.center

/-- SpatialManager.get_crane_home_position: the first configured crane
path point when one exists, else the cached bay center, else the origin
for an unknown bay. -/
def get_crane_home_position (m : Spatial) (bayId : String) : Pos :=
  match lookupBay m bayId with
  | none => ⟨0, 0⟩
  | some b =>
    match b.cranePaths with
    | [] => b.center
    | p :: _ => ⟨p.startX.getD 0, p.y.getD 0⟩

/-- The per-pair segment builder of get_path_between_bays: one segment
dict per consecutive waypoint pair, with distance the float computation
(dx**2 + dy**2)**0.5 (sqrt is the float square root, passed explicitly)
and travel_time = distance / speed. -/
def mkSeg (sqrt : ℚ → ℚ) (speed : ℚ) (p1 p2 : Pos) : Segment :=
  let dx := p2.x - p1.x
  let dy := p2.y - p1.y
  let distance := sqrt (dx ^ 2 + dy ^ 2)
  { fromPos := p1, toPos := p2, distance := distance, travelTime := distance / speed }

/-- The loop of get_path_between_bays over consecutive waypoint pairs. -/
def mkSegments (sqrt : ℚ → ℚ) (speed : ℚ) : List Pos → List Segment
  | p1 :: p2 :: rest => mkSeg sqrt speed p1 p2 :: mkSegments sqrt speed (p2 :: rest)
  | _ => []

/-- SpatialManager.get_path_between_bays: none for an unknown bay or a
non-positive configured speed; otherwise the waypoint chain between the
two cached bay centers, routed for car types tapping and treatment through
the intermediate point taking x from the destination center and y from the
source center, and direct for every other car type (rh included). -/
def get_path_between_bays (sqrt : ℚ → ℚ) (m : Spatial)
    (fromBayId toBayId : String) (carType : Option String) :
    Option (List Segment) :=
  match lookupBay m fromBayId, lookupBay m toBayId with
  | some bFrom, some bTo =>
      let start := bFrom.center
      let stop := bTo.center
      let waypoints :=
        if carType == some "tapping" || carType == some "treatment" then
          [start, ⟨stop.x, start.y⟩, stop]
        else [start, stop]
      if m.ladleCarSpeed ≤ 0 then none
      else some (mkSegments sqrt m.ladleCarSpeed waypoints)
  | _, _ => none

/-! ## Crane (equipment/crane.py) -/

/-- The CraneState enum of the source. -/
inductive CraneState
  | idle
  | moving
  | lifting
  | lowering
  | error
deriving DecidableEq, Repr

/-- One entry (-priority, source, destination) of the crane task heap. -/
structure TaskEntry where
  negPriority : Int
  source : String
  destination : String
deriving DecidableEq, Repr

/-- The mutable state of a Crane.  The per-phase duration histories
(operation_times), the salabim State wrapper, the cooperative lock and the
deadlock timestamp are elided: no modelled operation reads them back.
LIFT_TIME = LOWER_TIME = 3, TASK_OVERHEAD = 6 appear as literals. -/
structure Crane where
  craneId : ℕ
  bay : String
  speed : ℚ
  accel : ℚ
  hoistSpeed : ℚ
  craneState : CraneState
  currentHeat : Option ℕ
  currentLadle : Option ℕ
  source : Option String
  destination : Option String
  position : Pos
  zPosition : ℚ
  taskQueue : List TaskEntry
  busyTime : ℚ
  distanceCache : List ((ℚ × ℚ × ℚ × ℚ) × ℚ)
  taskCount : ℕ
  errorCount : ℕ
deriving DecidableEq, Repr

/-- Crane._calculate_movement_time: the trapezoidal velocity profile,
cached under the flattened (start, end) coordinate key and mirrored for
the reverse key.  Returns the time and the crane with the updated cache. -/
def calculate_movement_time (sqrt : ℚ → ℚ) (c : Crane) (start stop : Pos) : ℚ × Crane :=
  let key := (start.x, start.y, stop.x, stop.y)
  match c.distanceCache.find? (fun p => p.1 == key) with
  | some p => (p.2, c)
  | none =>
    let distance := sqrt ((start.x - stop.x) ^ 2 + (start.y - stop.y) ^ 2)
    let tAccel := c.speed / c.accel
    let dAccel := 1 / 2 * c.accel * tAccel ^ 2
    let t :=
      if distance < 2 * dAccel then sqrt (2 * distance / c.accel)
      else 2 * tAccel + (distance - 2 * dAccel) / c.speed
    let revKey := (stop.x, stop.y, start.x, start.y)
    (t, { c with distanceCache := dictSet (dictSet c.distanceCache key t) revKey t })

/-- Crane.assign_task.  source and destination are the optional python
arguments (None rejected up front); inBay models
spatial_manager.is_unit_in_bay for the crane bay and getPos models
get_unit_position at the source.  A busy crane (state not idle, or a
non-empty task queue) enqueues (-priority, source, destination) and
returns 0; an idle crane with a location outside its bay returns 0
unchanged; otherwise the task starts and the estimated completion time
movement + TASK_OVERHEAD is returned. -/
def assign_task (sqrt : ℚ → ℚ) (c : Crane) (source destination : Option String)
    (priority : Int) (inBay : String → Bool) (getPos : String → Pos) : ℚ × Crane :=
  match source, destination with
  | some src, some dst =>
    if c.craneState != CraneState.idle || !c.taskQueue.isEmpty then
      (0, { c with taskQueue := heapPush c.taskQueue ⟨-priority, src, dst⟩ })
    else if !(inBay src && inBay dst) then (0, c)
    else
      let c1 : Crane :=
        { c with
          source := some src
          destination := some dst
          craneState := CraneState.moving
          taskCount := c.taskCount + 1 }
      let r := calculate_movement_time sqrt c1 c1.position (getPos src)
      (r.1 + 6, r.2)
  | _, _ => (0, c)

/-- Crane.is_available. -/
def crane_is_available (c : Crane) : Bool :=
  c.craneState == CraneState.idle && c.taskQueue.isEmpty

/-- Crane._handle_error_state: count the error and enter the error state. -/
def handle_error_state (c : Crane) : Crane :=
  { c with errorCount := c.errorCount + 1, craneState := CraneState.error }

/-- The outcomes of the LIFTING branch body of Crane.process. -/
inductive LiftEvent
  | exn
  | noLadle
  | pickup (ladleId : ℕ) (heatId : Option ℕ)
deriving DecidableEq, Repr

/-- One iteration of Crane.process in the LIFTING branch (a no-op when the
crane is in any other state, mirroring the dispatch on the state value).
exn covers every exception the branch raises and catches in its own
handler: a None source, a missing unit at the source, or a unit without a
current_ladle attribute, all routed to _handle_error_state.  noLadle is
the warn-and-idle branch for a unit whose current_ladle is None; pickup
takes the ladle and heads to the destination. -/
def liftingStep (c : Crane) (ev : LiftEvent) : Crane :=
  if c.craneState != CraneState.lifting then c
  else
    match ev with
    | LiftEvent.exn => handle_error_state c
    | LiftEvent.noLadle =>
        { c with craneState := CraneState.idle, source := none, destination := none }
    | LiftEvent.pickup l h =>
        { c with currentLadle := some l, currentHeat := h, craneState := CraneState.moving }

/-- One iteration of Crane.process in the ERROR branch (a no-op in any
other state): clear the in-flight task, hold the fixed 3-minute cooldown,
then return to idle.  The second component is the cooldown duration. -/
def errorRecoveryStep (c : Crane) : Crane × ℚ :=
  if c.craneState != CraneState.error then (c, 0)
  else
    ({ c with
        currentLadle := none
        currentHeat := none
        source := none
        destination := none
        craneState := CraneState.idle }, 3)

/-- Crane.get_utilization at elapsed simulated time now = self.env.now(). -/
def get_utilization (c : Crane) (now : ℚ) : ℚ :=
  if 0 < now then c.busyTime / now * 100 else 0

/-- A fresh Crane as built by __init__: idle, empty hands and queue, zero
counters, at the home position supplied by the spatial service, with the
constructor defaults speed 100, accel 10, hoist_speed 20. -/
def mkCrane (craneId : ℕ) (bay : String) (pos : Pos) : Crane where
  craneId := craneId
  bay := bay
  speed := 100
  accel := 10
  hoistSpeed := 20
  craneState := CraneState.idle
  currentHeat := none
  currentLadle := none
  source := none
  destination := none
  position := pos
  zPosition := 0
  taskQueue := []
  busyTime := 0
  distanceCache := []
  taskCount := 0
  errorCount := 0

/-- A SpatialManager built from a configuration with no bays. -/
def emptySpatial : Spatial where
  bays := []
  equipmentLocations := []
  ladleCarSpeed := 150

/-! ## Theorems -/

/-- C1 counterexample: the source maps a caster destination to
"treatment", the very type same-bay moves default to, so the caster rule
does not yield a type distinct from both defaults.  Concretely, a same-bay
move to a unit named Caster_1 and a same-bay move to a nameless unit get
the same car type. -/
theorem C1_counterexample :
    inferCarType "bay1" "bay1" (some "Caster_1") = "treatment" ∧
    inferCarType "bay1" "bay1" none = "treatment" := by
  constructor <;> rfl

/-- C1 (amended): request_transport infers the car type from exactly two
values: cross-bay moves default to "tapping", same-bay moves to
"treatment", and a destination whose name contains "caster" forces
"treatment" — the same value as the same-bay default, not a third
distinct type. -/
theorem C1_carType_amended (fromBay toBay : String) (n : String) :
    (nameHasCaster n = true → inferCarType fromBay toBay (some n) = "treatment") ∧
    (nameHasCaster n = false → fromBay ≠ toBay →
      inferCarType fromBay toBay (some n) = "tapping") ∧
    (nameHasCaster n = false → fromBay = toBay →
      inferCarType fromBay toBay (some n) = "treatment") ∧
    (fromBay ≠ toBay → inferCarType fromBay toBay none = "tapping") ∧
    (fromBay = toBay → inferCarType fromBay toBay none = "treatment") ∧
    ("tapping" : String) ≠ "treatment" := by
  refine ⟨?_, ?_, ?_, ?_, ?_, by decide⟩
  · intro hc
    simp [inferCarType, hc]
  · intro hc hne
    simp [inferCarType, hc, bne_iff_ne, hne]
  · intro hc heq
    simp [inferCarType, hc, heq]
  · intro hne
    simp [inferCarType, bne_iff_ne, hne]
  · intro heq
    simp [inferCarType, heq]

/-- C1 witness: the amended rule evaluated at concrete requests. -/
theorem C1_witness :
    inferCarType "bay1" "bay2" (some "EAF_2") = "tapping" ∧
    inferCarType "bay3" "bay3" (some "LMF_1") = "treatment" ∧
    inferCarType "bay1" "bay1" (some "Caster_1") = "treatment" :=
  ⟨(C1_carType_amended "bay1" "bay2" "EAF_2").2.1 (by decide) (by decide),
   (C1_carType_amended "bay3" "bay3" "LMF_1").2.2.1 (by decide) rfl,
   (C1_carType_amended "bay1" "bay1" "Caster_1").1 (by decide)⟩

/-- C2: the carried-heat invariant is violated at an observable point.  A
car in status "unloading" carrying heat 7 whose destination lacks a usable
unit runs set_status("idle") before clearing current_heat, so the
on_idle_callback fired inside set_status observes an idle car still
holding the heat; the process-loop exception handler likewise idles a
moving car without clearing its heat at all. -/
theorem C2_idle_callback_observes_heat :
    (unloadingStepWithCrane
        { mkLadleCar 2 "tapping" "bay1" ⟨0, 0⟩ 150 with
          status := CarStatus.unloading
          currentHeat := some 7
          destination := some ⟨some "bay2", none⟩ }).2 =
      some ⟨CarStatus.idle, some 7⟩ ∧
    ((processExceptionHandler
        { mkLadleCar 2 "tapping" "bay1" ⟨0, 0⟩ 150 with
          status := CarStatus.moving
          currentHeat := some 7 }).1.status = CarStatus.idle ∧
     (processExceptionHandler
        { mkLadleCar 2 "tapping" "bay1" ⟨0, 0⟩ 150 with
          status := CarStatus.moving
          currentHeat := some 7 }).1.currentHeat = some 7 ∧
     (processExceptionHandler
        { mkLadleCar 2 "tapping" "bay1" ⟨0, 0⟩ 150 with
          status := CarStatus.moving
          currentHeat := some 7 }).2 = some ⟨CarStatus.idle, some 7⟩) := by
  refine ⟨rfl, rfl, rfl, rfl⟩

/-- C5: assign_heat on a car that is not idle returns false and returns
the car state completely unchanged. -/
theorem C5_assign_heat_not_idle
    (getPath : String → Option String → String → Option (List Segment))
    (c : CarState) (heatId : ℕ) (dest : Destination)
    (h : c.status ≠ CarStatus.idle) :
    assign_heat getPath c heatId dest = (false, c) := by
  simp [assign_heat, bne_iff_ne, h]

/-- C5 witness: a moving car rejects a new heat without any state change. -/
theorem C5_witness :
    assign_heat (fun _ _ _ => none)
      { mkLadleCar 1 "tapping" "bay1" ⟨0, 0⟩ 150 with
        status := CarStatus.moving, currentHeat := some 5 } 9 ⟨some "bay2", none⟩ =
      (false,
        { mkLadleCar 1 "tapping" "bay1" ⟨0, 0⟩ 150 with
          status := CarStatus.moving, currentHeat := some 5 }) :=
  C5_assign_heat_not_idle (fun _ _ _ => none) _ 9 ⟨some "bay2", none⟩ (by decide)

/-- C7: get_unit_position raises on equipment registered through
add_equipment, because add_equipment stores a flat x/y dict while
get_unit_position reads the "position" key that only place_equipment
writes; the bay-keyed queries do fall back to the origin or to none on
unknown identifiers. -/
theorem C7_unit_position_raises :
    get_unit_position (add_equipment emptySpatial "EAF" 10 20) "EAF" =
      Except.error "KeyError: position" ∧
    get_bay_position emptySpatial "bayX" = ⟨0, 0⟩ ∧
    get_crane_home_position emptySpatial "bayX" = ⟨0, 0⟩ ∧
    get_path_between_bays (fun q => q) emptySpatial "bayX" "bayY" (some "tapping") = none := by
  refine ⟨rfl, rfl, rfl, rfl⟩

/-- C9 counterexample: a crane with busy_time 1 at simulated time 2 has
utilization 50, not the ratio 1/2: get_utilization reports a percentage. -/
theorem C9_counterexample :
    get_utilization { mkCrane 1 "bay1" ⟨0, 0⟩ with busyTime := 1 } 2 ≠
      ({ mkCrane 1 "bay1" ⟨0, 0⟩ with busyTime := 1 } : Crane).busyTime / 2 := by
  simp [get_utilization, mkCrane]

/-- C9 (amended): for positive elapsed simulated time the utilization
metric returns busyTime / elapsedSimTime scaled to a percentage, that is
100 times the busy-time fraction. -/
theorem C9_utilization_amended (c : Crane) (now : ℚ) (h : 0 < now) :
    get_utilization c now = 100 * (c.busyTime / now) := by
  simp [get_utilization, h]
  ring

/-- C9 witness: busy 2 of 4 minutes reads as 100 * (2 / 4) = 50 percent. -/
theorem C9_witness :
    get_utilization { mkCrane 1 "bay1" ⟨0, 0⟩ with busyTime := 2 } 4 =
      100 * (({ mkCrane 1 "bay1" ⟨0, 0⟩ with busyTime := 2 } : Crane).busyTime / 4) :=
  C9_utilization_amended { mkCrane 1 "bay1" ⟨0, 0⟩ with busyTime := 2 } 4 (by norm_num)

/-- C4: assign_task on a crane that is busy (not idle) or has queued work
pushes (-priority, source, destination) onto the task queue, returns 0,
and changes nothing else: the current source, destination and state are
exactly as before. -/
theorem C4_assign_task_busy_enqueues (sqrt : ℚ → ℚ) (c : Crane) (src dst : String)
    (priority : Int) (inBay : String → Bool) (getPos : String → Pos)
    (h : c.craneState ≠ CraneState.idle ∨ c.taskQueue ≠ []) :
    assign_task sqrt c (some src) (some dst) priority inBay getPos =
      (0, { c with taskQueue := heapPush c.taskQueue ⟨-priority, src, dst⟩ }) ∧
    (assign_task sqrt c (some src) (some dst) priority inBay getPos).2.taskQueue.Perm
      (⟨-priority, src, dst⟩ :: c.taskQueue) ∧
    (assign_task sqrt c (some src) (some dst) priority inBay getPos).2.source = c.source ∧
    (assign_task sqrt c (some src) (some dst) priority inBay getPos).2.destination =
      c.destination ∧
    (assign_task sqrt c (some src) (some dst) priority inBay getPos).2.craneState =
      c.craneState := by
  have hb : (c.craneState != CraneState.idle || !c.taskQueue.isEmpty) = true := by
    rcases h with h | h
    · simp [bne_iff_ne, h]
    · simp [h]
  have hmain : assign_task sqrt c (some src) (some dst) priority inBay getPos =
      (0, { c with taskQueue := heapPush c.taskQueue ⟨-priority, src, dst⟩ }) := by
    simp only [assign_task, hb, if_true]
  refine ⟨hmain, ?_, ?_, ?_, ?_⟩ <;> rw [hmain]
  exact heapPush_perm c.taskQueue ⟨-priority, src, dst⟩

/-- C4 witness: a moving crane queues the task (4, "EAF_1", "LMF_1")
at priority -4 and keeps its current task untouched. -/
theorem C4_witness :
    assign_task (fun q => q)
      { mkCrane 1 "bay1" ⟨0, 0⟩ with
        craneState := CraneState.moving
        source := some "EAF_2"
        destination := some "Caster_1" }
      (some "EAF_1") (some "LMF_1") 4 (fun _ => true) (fun _ => ⟨0, 0⟩) =
      (0, { mkCrane 1 "bay1" ⟨0, 0⟩ with
            craneState := CraneState.moving
            source := some "EAF_2"
            destination := some "Caster_1"
            taskQueue := heapPush [] ⟨-4, "EAF_1", "LMF_1"⟩ }) :=
  (C4_assign_task_busy_enqueues (fun q => q) _ "EAF_1" "LMF_1" 4 (fun _ => true)
    (fun _ => ⟨0, 0⟩) (Or.inl (by decide))).1

/-- C8: a crane in the LIFTING phase whose phase body raises enters the
error state with error_count incremented by exactly one, and the
subsequent ERROR-branch recovery holds the fixed 3-minute cooldown and
leaves the crane idle with source, destination, carried ladle and carried
heat all cleared (error_count still incremented by exactly one). -/
theorem C8_lifting_error_recovery (c : Crane) (h : c.craneState = CraneState.lifting) :
    (liftingStep c LiftEvent.exn).craneState = CraneState.error ∧
    (liftingStep c LiftEvent.exn).errorCount = c.errorCount + 1 ∧
    (errorRecoveryStep (liftingStep c LiftEvent.exn)).2 = 3 ∧
    (errorRecoveryStep (liftingStep c LiftEvent.exn)).1.craneState = CraneState.idle ∧
    (errorRecoveryStep (liftingStep c LiftEvent.exn)).1.source = none ∧
    (errorRecoveryStep (liftingStep c LiftEvent.exn)).1.destination = none ∧
    (errorRecoveryStep (liftingStep c LiftEvent.exn)).1.currentLadle = none ∧
    (errorRecoveryStep (liftingStep c LiftEvent.exn)).1.currentHeat = none ∧
    (errorRecoveryStep (liftingStep c LiftEvent.exn)).1.errorCount = c.errorCount + 1 := by
  have hl : liftingStep c LiftEvent.exn = handle_error_state c := by
    simp [liftingStep, h]
  rw [hl]
  have he : errorRecoveryStep (handle_error_state c) =
      ({ handle_error_state c with
          currentLadle := none
          currentHeat := none
          source := none
          destination := none
          craneState := CraneState.idle }, 3) := by
    simp [errorRecoveryStep, handle_error_state]
  rw [he]
  exact ⟨rfl, rfl, rfl, rfl, rfl, rfl, rfl, rfl, rfl⟩

/-- C8 witness: a lifting crane mid-task, after a forced exception and the
cooldown, sits idle and empty with one more recorded error. -/
theorem C8_witness :
    (liftingStep
      { mkCrane 2 "bay1" ⟨5, 5⟩ with
        craneState := CraneState.lifting
        source := some "EAF_1"
        destination := some "LMF_1" } LiftEvent.exn).craneState = CraneState.error ∧
    (errorRecoveryStep (liftingStep
      { mkCrane 2 "bay1" ⟨5, 5⟩ with
        craneState := CraneState.lifting
        source := some "EAF_1"
        destination := some "LMF_1" } LiftEvent.exn)).1.errorCount = 1 :=
  let c : Crane :=
    { mkCrane 2 "bay1" ⟨5, 5⟩ with
      craneState := CraneState.lifting
      source := some "EAF_1"
      destination := some "LMF_1" }
  let r := C8_lifting_error_recovery c rfl
  ⟨r.1, r.2.2.2.2.2.2.2.2⟩

/-- C3: between two distinct configured bays with a positive configured
ladle-car speed, get_path_between_bays yields exactly two segments for car
types tapping and treatment, routed through the intermediate point taking
x from the destination center and y from the source center, exactly one
direct segment for rh, and every returned segment (for any car type)
carries travel_time = distance / speed with distance the Euclidean length
of the segment (sqrt is the float square root of the source). -/
theorem C3_path_between_bays (sqrt : ℚ → ℚ) (m : Spatial) (fb tb : String)
    (bf bt : BayRec) (hf : lookupBay m fb = some bf) (ht : lookupBay m tb = some bt)
    (hne : fb ≠ tb) (hspeed : 0 < m.ladleCarSpeed) :
    (∀ ct, ct = "tapping" ∨ ct = "treatment" →
      ∃ s1 s2, get_path_between_bays sqrt m fb tb (some ct) = some [s1, s2] ∧
        s1.fromPos = bf.center ∧ s1.toPos = ⟨bt.center.x, bf.center.y⟩ ∧
        s2.fromPos = ⟨bt.center.x, bf.center.y⟩ ∧ s2.toPos = bt.center) ∧
    (∃ s, get_path_between_bays sqrt m fb tb (some "rh") = some [s] ∧
      s.fromPos = bf.center ∧ s.toPos = bt.center) ∧
    (∀ ct segs, get_path_between_bays sqrt m fb tb ct = some segs →
      ∀ s ∈ segs, s.travelTime = s.distance / m.ladleCarSpeed ∧
        s.distance = sqrt ((s.toPos.x - s.fromPos.x) ^ 2 + (s.toPos.y - s.fromPos.y) ^ 2)) := by
  have hsp : ¬ m.ladleCarSpeed ≤ 0 := not_le.mpr hspeed
  refine ⟨?_, ?_, ?_⟩
  · rintro ct (rfl | rfl) <;>
      exact ⟨mkSeg sqrt m.ladleCarSpeed bf.center ⟨bt.center.x, bf.center.y⟩,
        mkSeg sqrt m.ladleCarSpeed ⟨bt.center.x, bf.center.y⟩ bt.center,
        by simp only [get_path_between_bays, hf, ht]; rw [if_neg hsp]; rfl,
        rfl, rfl, rfl, rfl⟩
  · refine ⟨mkSeg sqrt m.ladleCarSpeed bf.center bt.center, ?_, rfl, rfl⟩
    simp only [get_path_between_bays, hf, ht]
    rw [if_neg hsp]
    rfl
  · intro ct segs hsegs s hs
    simp only [get_path_between_bays, hf, ht] at hsegs
    rw [if_neg hsp] at hsegs
    by_cases hct : (ct == some "tapping" || ct == some "treatment") = true
    · rw [if_pos hct] at hsegs
      simp only [mkSegments, Option.some.injEq] at hsegs
      subst hsegs
      simp only [List.mem_cons, List.not_mem_nil, or_false] at hs
      rcases hs with rfl | rfl <;> exact ⟨rfl, rfl⟩
    · rw [if_neg hct] at hsegs
      simp only [mkSegments, Option.some.injEq] at hsegs
      subst hsegs
      simp only [List.mem_cons, List.not_mem_nil, or_false] at hs
      rcases hs with rfl
      exact ⟨rfl, rfl⟩

/-- A two-bay configuration used to instantiate the path and dispatch
theorems: bay1 centered at (50, 50), bay2 at (150, 50). -/
def spatialW : Spatial where
  bays :=
    [{ bayId := "bay1", topLeft := ⟨0, 0⟩, bottomRight := ⟨100, 100⟩,
       cranePaths := [], center := ⟨50, 50⟩ },
     { bayId := "bay2", topLeft := ⟨100, 0⟩, bottomRight := ⟨200, 100⟩,
       cranePaths := [], center := ⟨150, 50⟩ }]
  equipmentLocations := []
  ladleCarSpeed := 150

/-- C3 witness: between the two configured bays an rh car gets the single
direct center-to-center segment. -/
theorem C3_witness :
    ∃ s, get_path_between_bays (fun q => q) spatialW "bay1" "bay2" (some "rh") = some [s] ∧
      s.fromPos = (⟨50, 50⟩ : Pos) ∧ s.toPos = (⟨150, 50⟩ : Pos) :=
  (C3_path_between_bays (fun q => q) spatialW "bay1" "bay2"
    { bayId := "bay1", topLeft := ⟨0, 0⟩, bottomRight := ⟨100, 100⟩,
      cranePaths := [], center := ⟨50, 50⟩ }
    { bayId := "bay2", topLeft := ⟨100, 0⟩, bottomRight := ⟨200, 100⟩,
      cranePaths := [], center := ⟨150, 50⟩ }
    rfl rfl (by decide) (by norm_num [spatialW])).2.1

/-- heappop returns a minimal entry; the heap content is preserved. -/
theorem popMin_perm : ∀ {l : List PendingEntry} {e : PendingEntry} {r : List PendingEntry},
    popMin l = some (e, r) → l.Perm (e :: r) := by
  intro l
  induction l with
  | nil => intro e r h; cases h
  | cons x xs ih =>
    intro e r h
    dsimp only [popMin] at h
    cases hx : popMin xs with
    | none =>
      rw [hx] at h
      cases h
      have hxs : xs = [] := by
        cases xs with
        | nil => rfl
        | cons y ys =>
          exfalso
          dsimp only [popMin] at hx
          cases hy : popMin ys with
          | none => rw [hy] at hx; cases hx
          | some p => rw [hy] at hx; obtain ⟨m, r1⟩ := p; dsimp only at hx; split at hx <;> cases hx
      subst hxs
      exact List.Perm.refl _
    | some p =>
      obtain ⟨m, r1⟩ := p
      rw [hx] at h
      dsimp only at h
      split at h
      · cases h
        exact List.Perm.refl _
      · cases h
        exact ((ih hx).cons x).trans (List.Perm.swap e x r1)

/-- The drain loop never records more than 10 assignments when it starts
at or below 10. -/
theorem drainLoopF_count_le
    (getPath : String → Option String → String → Option (List Segment))
    (dist : String → String → ℚ) :
    ∀ (fuel : ℕ) (pending : List PendingEntry) (cars : List CarState) (processed : ℕ),
      processed ≤ 10 →
      (drainLoopF getPath dist fuel pending cars processed).2.2 ≤ 10 := by
  intro fuel
  induction fuel with
  | zero => intro pending cars processed h; exact h
  | succ f ih =>
    intro pending cars processed h
    simp only [drainLoopF]
    split
    · exact h
    next h10 =>
      split
      · exact h
      · split
        · exact ih _ _ _ h
        · split
          · exact h
          · split
            · exact ih _ _ _ (by omega)
            · exact h

/-- C6: the drain routine performs at most 10 assignments per invocation,
and when the popped highest-priority pending request has no idle car of
its required type it is pushed back with its original (priority,
timestamp) key and the routine stops with zero assignments and the fleet
untouched: the final queue is exactly the popped remainder plus the
restored entry, a permutation of the original queue. -/
theorem C6_drain_head_of_line
    (getPath : String → Option String → String → Option (List Segment))
    (dist : String → String → ℚ) (pending : List PendingEntry) (cars : List CarState)
    (e : PendingEntry) (r : List PendingEntry)
    (hpop : popMin pending = some (e, r))
    (hstatus : e.req.status = ReqStatus.pending)
    (hnone : availableCarsFor e.req.carType cars = []) :
    process_pending_requests getPath dist pending cars = (heapPush r e, cars, 0) ∧
    (process_pending_requests getPath dist pending cars).1.Perm pending ∧
    (∀ (p2 : List PendingEntry) (c2 : List CarState),
      (process_pending_requests getPath dist p2 c2).2.2 ≤ 10) := by
  have hlen : pending.length = r.length + 1 := by
    simpa using (popMin_perm hpop).length_eq
  have hmain : process_pending_requests getPath dist pending cars = (heapPush r e, cars, 0) := by
    rw [process_pending_requests, hlen]
    simp only [drainLoopF, hpop, hstatus, hnone]
    norm_num
  refine ⟨hmain, ?_, ?_⟩
  · rw [hmain]
    exact (heapPush_perm r e).trans (popMin_perm hpop).symm
  · intro p2 c2
    exact drainLoopF_count_le getPath dist p2.length p2 c2 0 (by omega)

/-- A pending request entry at priority 0, timestamp 0, asking for a
tapping car from bay1 to bay2. -/
def pendingW : PendingEntry where
  priority := 0
  timestamp := 0
  req :=
    { heatId := 1
      fromBay := "bay1"
      toBay := "bay2"
      toUnit := none
      carType := "tapping"
      timeRequested := 0
      status := ReqStatus.pending
      assignedCar := none }

/-- C6 witness: with one pending tapping request and a fleet holding only
an idle treatment car, one drain invocation requeues the request, assigns
nothing and leaves the fleet alone. -/
theorem C6_witness :
    process_pending_requests (fun _ _ _ => none) (fun _ _ => 0)
      [pendingW] [mkLadleCar 1 "treatment" "bay1" ⟨0, 0⟩ 150] =
      (heapPush [] pendingW, [mkLadleCar 1 "treatment" "bay1" ⟨0, 0⟩ 150], 0) :=
  (C6_drain_head_of_line (fun _ _ _ => none) (fun _ _ => 0)
    [pendingW] [mkLadleCar 1 "treatment" "bay1" ⟨0, 0⟩ 150]
    pendingW [] rfl rfl (by decide)).1

/-- C10: the inferred car type of a transport request is never "rh", the
drain routine only ever matches a car whose type equals the request type
(so such a car is never an rh car), yet the fallback fleet construction
does create an rh car — rh cars can never be assigned a transport
request. -/
theorem C10_rh_cars_never_assigned (fb tb : String) (n : Option String) :
    inferCarType fb tb n ≠ "rh" ∧
    (∀ (cars : List CarState) (c : CarState),
      c ∈ availableCarsFor (inferCarType fb tb n) cars → c.carType ≠ "rh") ∧
    (∀ getBayPos : String → Pos, ∃ c, c ∈ defaultFleet getBayPos ∧ c.carType = "rh") := by
  have h1 : inferCarType fb tb n ≠ "rh" := by
    cases n <;> simp only [inferCarType] <;> (repeat' split) <;> decide
  refine ⟨h1, ?_, ?_⟩
  · intro cars c hc
    have hm := List.mem_filter.mp hc
    have hty : c.carType = inferCarType fb tb n := by
      have hb := (Bool.and_eq_true _ _).mp hm.2
      exact eq_of_beq hb.1
    rw [hty]
    exact h1
  · intro getBayPos
    refine ⟨mkLadleCar 3 "rh" "bay1" (getBayPos "bay1") 150, ?_, rfl⟩
    have hfleet : defaultFleet getBayPos =
        [mkLadleCar 1 "tapping" "bay1" (getBayPos "bay1") 150,
         mkLadleCar 2 "treatment" "bay2" (getBayPos "bay2") 150,
         mkLadleCar 3 "rh" "bay1" (getBayPos "bay1") 150] := rfl
    rw [hfleet]
    exact List.mem_cons_of_mem _ (List.mem_cons_of_mem _ (List.mem_cons_self _ _))

/-- C10 witness: a cross-bay request infers "tapping", and a matching idle
car found by the availability filter is a tapping car, not rh. -/
theorem C10_witness :
    inferCarType "bay1" "bay2" none ≠ "rh" ∧
    (mkLadleCar 1 "tapping" "bay1" ⟨0, 0⟩ 150).carType ≠ "rh" :=
  ⟨(C10_rh_cars_never_assigned "bay1" "bay2" none).1,
   (C10_rh_cars_never_assigned "bay1" "bay2" none).2.1
     [mkLadleCar 1 "tapping" "bay1" ⟨0, 0⟩ 150]
     (mkLadleCar 1 "tapping" "bay1" ⟨0, 0⟩ 150) (by decide)⟩

end SteelPlant
